import Mathlib

/-!
Verification of the key-operation client core of the kubernetes-kms
Key Vault plugin (`pkg/plugin/keyvault.go`), shallowly embedded in Lean.

Modelling conventions:
* Go strings that carry arbitrary wire bytes (plaintext, ciphertext, the
  base64 request/response values) are modelled as `List Nat`, each element a
  byte value; Go's `[]byte(s)` / `string(b)` conversions are then identities,
  exactly as in Go.
* Go strings used as identifiers and URLs (vault names, DNS suffixes,
  endpoints) are modelled as Lean `String`; Go's `len` on such a string is
  `String.utf8ByteSize`.
* External collaborators of the file (the Azure SDK base client's remote
  `Encrypt`/`Decrypt` calls, `utils.SanitizeString`, `auth.ParseAzureEnvironment`,
  `auth.GetKeyvaultToken`, `AddToUserAgent`) are taken as parameters of the
  embedded functions, so every theorem quantifies over their behaviour.
* `fmt.Errorf` messages are modelled as the corresponding string
  concatenations; the `%q` verb is modelled as surrounding double quotes
  (exact for the quoted values free of escape-needing characters), and the
  formatted cause of a base64 decode failure is elided, keeping the
  distinguishing message text.
-/

namespace KubernetesKMS

/-- Mirror of `azure.Environment.ResourceIdentifiers` from go-autorest:
the per-cloud token audiences for the two vault resource classes. -/
structure ResourceIdentifiers where
  keyVault : String
  managedHSM : String
  deriving Repr, DecidableEq

/-- Mirror of the fields of go-autorest's `azure.Environment` that
`pkg/plugin/keyvault.go` reads or writes. -/
structure AzureEnvironment where
  name : String
  activeDirectoryEndpoint : String
  keyVaultDNSSuffix : String
  managedHSMDNSSuffix : String
  resourceIdentifiers : ResourceIdentifiers
  deriving Repr, DecidableEq

/-- go-autorest's `azure.NotAvailable` sentinel, marking a field that the
cloud in question does not provide. -/
def notAvailable : String := "N/A"

/-- go-autorest's `azure.PublicCloud`, restricted to the modelled fields. -/
def azurePublicCloud : AzureEnvironment :=
  { name := "AzurePublicCloud"
    activeDirectoryEndpoint := "https://login.microsoftonline.com/"
    keyVaultDNSSuffix := "vault.azure.net"
    managedHSMDNSSuffix := "managedhsm.azure.net"
    resourceIdentifiers :=
      { keyVault := "https://vault.azure.net"
        managedHSM := "https://managedhsm.azure.net" } }

/-- go-autorest's `azure.GermanCloud`, restricted to the modelled fields:
a cloud whose managed-HSM resource class is marked not available. -/
def azureGermanCloud : AzureEnvironment :=
  { name := "AzureGermanCloud"
    activeDirectoryEndpoint := "https://login.microsoftonline.de/"
    keyVaultDNSSuffix := "vault.microsoftazure.de"
    managedHSMDNSSuffix := notAvailable
    resourceIdentifiers :=
      { keyVault := "https://vault.microsoftazure.de"
        managedHSM := notAvailable } }

/-- Embedding of `getVaultDNSSuffix` (keyvault.go lines 167-172). -/
def getVaultDNSSuffix (managedHSM : Bool) (env : AzureEnvironment) : String :=
  if managedHSM then env.managedHSMDNSSuffix else env.keyVaultDNSSuffix

/-- Embedding of `getVaultResourceIdentifier` (keyvault.go lines 174-179). -/
def getVaultResourceIdentifier (managedHSM : Bool) (env : AzureEnvironment) : String :=
  if managedHSM then env.resourceIdentifiers.managedHSM
  else env.resourceIdentifiers.keyVault

/-- One character of the vault-name character class `[-A-Za-z0-9]`. -/
def isVaultNameChar (c : Char) : Bool :=
  c = '-' || ('A' ≤ c && c ≤ 'Z') || ('a' ≤ c && c ≤ 'z') || ('0' ≤ c && c ≤ '9')

/-- Go's `regexp.MustCompile(...).MatchString` for the anchored pattern
`[-A-Za-z0-9]+` over a whole string: at least one character, every
character in the class. -/
def matchesVaultNameRegex (s : String) : Bool :=
  !s.isEmpty && s.data.all isVaultNameChar

/-- Embedding of `getVaultURL` (keyvault.go lines 141-160). Go's `len` on a
string counts bytes, hence `String.utf8ByteSize`; errors are the
`fmt.Errorf` message strings. -/
def getVaultURL (vaultName : String) (managedHSM : Bool) (env : AzureEnvironment) :
    Except String String :=
  if vaultName.utf8ByteSize < 3 ∨ 24 < vaultName.utf8ByteSize then
    .error ("invalid vault name: \"" ++ vaultName ++ "\", must be between 3 and 24 chars")
  else if ¬ matchesVaultNameRegex vaultName then
    .error ("invalid vault name: \"" ++ vaultName ++ "\", must match [-a-zA-Z0-9]\x7b3,24\x7d")
  else if getVaultDNSSuffix managedHSM env = notAvailable then
    .error ("vault dns suffix not available for cloud: " ++ env.name)
  else
    .ok ("https://" ++ vaultName ++ "." ++ getVaultDNSSuffix managedHSM env ++ "/")

/-- Go's `strings.TrimPrefix`, on the character-list view of strings (for a
string that starts with the given text byte-slicing and character-dropping
agree). -/
def trimPre (s pre : String) : String :=
  if s.data.take pre.data.length = pre.data then { data := s.data.drop pre.data.length } else s

/-- Embedding of `getProxiedVaultURL` (keyvault.go lines 162-165); the Go
`int` port is an `Int`, printed by `%d` as `toString`. -/
def getProxiedVaultURL (vaultURL : String) (proxyAddress : String) (proxyPort : Int) : String :=
  "http://" ++ proxyAddress ++ ":" ++ toString proxyPort ++ "/" ++ trimPre vaultURL "https://"

/-- The byte value at an index of the URL-safe base64 alphabet
`A-Z a-z 0-9 - _` used by Go's `base64.RawURLEncoding`. -/
def b64Byte (i : Nat) : Nat :=
  if i < 26 then 65 + i
  else if i < 52 then 97 + (i - 26)
  else if i < 62 then 48 + (i - 52)
  else if i = 62 then 45
  else 95

/-- The inverse alphabet lookup of Go's base64 decoder: the six-bit value of
an input byte, or `none` for a byte outside the URL-safe alphabet. -/
def b64Index (c : Nat) : Option Nat :=
  if 65 ≤ c ∧ c ≤ 90 then some (c - 65)
  else if 97 ≤ c ∧ c ≤ 122 then some (c - 97 + 26)
  else if 48 ≤ c ∧ c ≤ 57 then some (c - 48 + 52)
  else if c = 45 then some 62
  else if c = 95 then some 63
  else none

/-- Go's `base64.RawURLEncoding.EncodeToString` on the byte view: each group
of three input bytes yields four alphabet bytes; a final group of one or two
bytes yields two or three alphabet bytes carrying the remaining bits, and no
padding is appended. -/
def base64urlEncode : List Nat → List Nat
  | [] => []
  | [b0] => [b64Byte (b0 / 4), b64Byte (b0 % 4 * 16)]
  | [b0, b1] => [b64Byte (b0 / 4), b64Byte (b0 % 4 * 16 + b1 / 16), b64Byte (b1 % 16 * 4)]
  | b0 :: b1 :: b2 :: rest =>
      b64Byte (b0 / 4) :: b64Byte (b0 % 4 * 16 + b1 / 16) ::
      b64Byte (b1 % 16 * 4 + b2 / 64) :: b64Byte (b2 % 64) :: base64urlEncode rest

/-- The quantum loop of Go's base64 decoder, after newline filtering: four
input bytes yield three output bytes; a final quantum of two or three bytes
yields one or two output bytes, discarding the trailing bits of the last
six-bit value; a final quantum of a single byte, or any byte outside the
alphabet, is a `CorruptInputError`. -/
def base64urlDecodeQuanta : List Nat → Option (List Nat)
  | [] => some []
  | [_] => none
  | [c0, c1] => do
      let i0 ← b64Index c0
      let i1 ← b64Index c1
      let n := i0 * 262144 + i1 * 4096
      some [n / 65536]
  | [c0, c1, c2] => do
      let i0 ← b64Index c0
      let i1 ← b64Index c1
      let i2 ← b64Index c2
      let n := i0 * 262144 + i1 * 4096 + i2 * 64
      some [n / 65536, n / 256 % 256]
  | c0 :: c1 :: c2 :: c3 :: rest => do
      let i0 ← b64Index c0
      let i1 ← b64Index c1
      let i2 ← b64Index c2
      let i3 ← b64Index c3
      let n := i0 * 262144 + i1 * 4096 + i2 * 64 + i3
      let tail ← base64urlDecodeQuanta rest
      some (n / 65536 :: n / 256 % 256 :: n % 256 :: tail)

/-- Go's `base64.RawURLEncoding.DecodeString` on the byte view: carriage
returns and newlines are ignored wherever they occur, then the input is
decoded in quanta of four bytes. -/
def base64urlDecode (s : List Nat) : Option (List Nat) :=
  base64urlDecodeQuanta (s.filter (fun c => c ≠ 13 && c ≠ 10))

/-- Mirror of `kv.RSA15`, the fixed RSA PKCS#1v1.5 algorithm identifier of
the Azure Key Vault SDK. -/
def RSA15 : String := "RSA1_5"

/-- Mirror of `kv.KeyOperationsParameters`: the request body of a remote
encrypt/decrypt call. The `value` field is the bytes of the Go string
placed in the request. -/
structure KeyOperationsParameters where
  algorithm : String
  value : List Nat
  deriving Repr, DecidableEq

/-- The remote side of a base-client key operation: given vault URL, key
name, key version and request parameters it returns the bytes of the
response's `Result` string, or a transport/remote error. Stands for
`kv.BaseClient.Encrypt` / `kv.BaseClient.Decrypt` of the Azure SDK. -/
def Remote : Type :=
  String → String → String → KeyOperationsParameters → Except String (List Nat)

/-- The fields of `keyVaultClient` that the embedded code reads, plus the
request-inspector state: `hasTargetTypeHeader` records whether the target
type routing header was installed on the base client (keyvault.go line 90). -/
structure KeyVaultClientState where
  vaultName : String
  keyName : String
  keyVersion : String
  vaultURL : String
  azureEnvironment : AzureEnvironment
  hasTargetTypeHeader : Bool
  deriving Repr, DecidableEq

/-- Embedding of the method `(*keyVaultClient).Encrypt` (keyvault.go lines
108-120), with the base client's remote call as the `remoteEncrypt`
parameter. The ok branch models `[]byte(*result.Result)`, the identity on
the response bytes. -/
def Encrypt (remoteEncrypt : Remote) (kvc : KeyVaultClientState) (cipher : List Nat) :
    Except String (List Nat) :=
  let value := base64urlEncode cipher
  let params : KeyOperationsParameters := { algorithm := RSA15, value := value }
  match remoteEncrypt kvc.vaultURL kvc.keyName kvc.keyVersion params with
  | .error e => .error ("failed to encrypt, error: " ++ e)
  | .ok result => .ok result

/-- Embedding of the method `(*keyVaultClient).Decrypt` (keyvault.go lines
122-139), with the base client's remote call as the `remoteDecrypt`
parameter. `string(plain)` is the identity on bytes; the decode-failure
message keeps the distinguishing text of the `fmt.Errorf` format, its
formatted cause elided. -/
def Decrypt (remoteDecrypt : Remote) (kvc : KeyVaultClientState) (plain : List Nat) :
    Except String (List Nat) :=
  let value := plain
  let params : KeyOperationsParameters := { algorithm := RSA15, value := value }
  match remoteDecrypt kvc.vaultURL kvc.keyName kvc.keyVersion params with
  | .error e => .error ("failed to decrypt, error: " ++ e)
  | .ok result =>
    match base64urlDecode result with
    | none => .error "failed to base64 decode result"
    | some bytes => .ok bytes

/-- Embedding of `newKeyVaultClient` (keyvault.go lines 44-106). The repo
collaborators outside this file are parameters: `sanitize` is
`utils.SanitizeString`, `userAgentErr` the outcome of
`kvClient.AddToUserAgent` (`some` an error message when it fails),
`parseAzureEnvironment` is `auth.ParseAzureEnvironment`, and
`getKeyvaultToken` is `auth.GetKeyvaultToken` applied to the opaque Azure
config (its success value is not inspected by this file, so it is `Unit`).
The logging statement has no effect on the result and is omitted. -/
def newKeyVaultClient
    (sanitize : String → String)
    (userAgentErr : Option String)
    (parseAzureEnvironment : String → Except String AzureEnvironment)
    (getKeyvaultToken : AzureEnvironment → String → Bool → Except String Unit)
    (cloud : String)
    (vaultName keyName keyVersion : String)
    (proxyMode : Bool) (proxyAddress : String) (proxyPort : Int)
    (managedHSM : Bool) : Except String KeyVaultClientState :=
  let vaultName := sanitize vaultName
  let keyName := sanitize keyName
  let keyVersion := sanitize keyVersion
  if vaultName.utf8ByteSize = 0 ∨ keyName.utf8ByteSize = 0 ∨ keyVersion.utf8ByteSize = 0 then
    .error "key vault name, key name and key version are required"
  else
    match userAgentErr with
    | some e => .error ("failed to add user agent to keyvault client, error: " ++ e)
    | none =>
      match parseAzureEnvironment cloud with
      | .error e => .error ("failed to parse cloud environment: " ++ cloud ++ ", error: " ++ e)
      | .ok env0 =>
        let env :=
          if proxyMode then
            { env0 with
              activeDirectoryEndpoint :=
                "http://" ++ proxyAddress ++ ":" ++ toString proxyPort ++ "/" }
          else env0
        let vaultResourceURL := getVaultResourceIdentifier managedHSM env
        if vaultResourceURL = notAvailable then
          .error ("keyvault resource identifier not available for cloud: " ++ env.name)
        else
          match getKeyvaultToken env vaultResourceURL proxyMode with
          | .error e => .error ("failed to get key vault token, error: " ++ e)
          | .ok _ =>
            match getVaultURL vaultName managedHSM env with
            | .error e => .error ("failed to get vault url, error: " ++ e)
            | .ok vaultURL0 =>
              let hasHeader := proxyMode
              let vaultURL :=
                if proxyMode then getProxiedVaultURL vaultURL0 proxyAddress proxyPort
                else vaultURL0
              .ok { vaultName := vaultName
                    keyName := keyName
                    keyVersion := keyVersion
                    vaultURL := vaultURL
                    azureEnvironment := env
                    hasTargetTypeHeader := hasHeader }

/-- Every alphabet byte is at least 45, in particular never CR or LF. -/
theorem b64Byte_ge (i : Nat) : 45 ≤ b64Byte i := by
  unfold b64Byte
  split_ifs <;> omega

/-- Looking an alphabet byte back up recovers its six-bit index. -/
theorem b64Index_b64Byte (i : Nat) (h : i < 64) : b64Index (b64Byte i) = some i := by
  have key : ∀ j : Fin 64, b64Index (b64Byte j.val) = some j.val := by decide
  exact key ⟨i, h⟩

/-- Encoded output never contains a carriage return or newline byte. -/
theorem base64urlEncode_all_ge : ∀ (p : List Nat), ∀ c ∈ base64urlEncode p, 45 ≤ c
  | [], c, hc => by simp [base64urlEncode] at hc
  | [b0], c, hc => by
      simp only [base64urlEncode, List.mem_cons, List.not_mem_nil, or_false] at hc
      rcases hc with rfl | rfl <;> exact b64Byte_ge _
  | [b0, b1], c, hc => by
      simp only [base64urlEncode, List.mem_cons, List.not_mem_nil, or_false] at hc
      rcases hc with rfl | rfl | rfl <;> exact b64Byte_ge _
  | b0 :: b1 :: b2 :: rest, c, hc => by
      simp only [base64urlEncode, List.mem_cons] at hc
      rcases hc with rfl | rfl | rfl | rfl | h
      · exact b64Byte_ge _
      · exact b64Byte_ge _
      · exact b64Byte_ge _
      · exact b64Byte_ge _
      · exact base64urlEncode_all_ge rest c h

/-- The newline filter of the decoder leaves encoded output unchanged. -/
theorem filter_base64urlEncode (p : List Nat) :
    (base64urlEncode p).filter (fun c => c ≠ 13 && c ≠ 10) = base64urlEncode p := by
  rw [List.filter_eq_self]
  intro a ha
  have := base64urlEncode_all_ge p a ha
  simp only [ne_eq, Bool.and_eq_true, decide_eq_true_eq]
  omega

/-- Decoding the quanta of encoded output recovers the input bytes. -/
theorem base64urlDecodeQuanta_encode :
    ∀ (p : List Nat), (∀ b ∈ p, b < 256) →
      base64urlDecodeQuanta (base64urlEncode p) = some p
  | [], _ => rfl
  | [b0], h => by
      have hb0 : b0 < 256 := h b0 (by simp)
      simp only [base64urlEncode, base64urlDecodeQuanta]
      rw [b64Index_b64Byte _ (by omega), b64Index_b64Byte _ (by omega)]
      simp only [Option.bind_eq_bind, Option.some_bind, Option.some.injEq,
        List.cons.injEq, and_true]
      omega
  | [b0, b1], h => by
      have hb0 : b0 < 256 := h b0 (by simp)
      have hb1 : b1 < 256 := h b1 (by simp)
      simp only [base64urlEncode, base64urlDecodeQuanta]
      rw [b64Index_b64Byte _ (by omega), b64Index_b64Byte _ (by omega),
        b64Index_b64Byte _ (by omega)]
      simp only [Option.bind_eq_bind, Option.some_bind, Option.some.injEq,
        List.cons.injEq, and_true]
      constructor <;> omega
  | b0 :: b1 :: b2 :: rest, h => by
      have hb0 : b0 < 256 := h b0 (by simp)
      have hb1 : b1 < 256 := h b1 (by simp)
      have hb2 : b2 < 256 := h b2 (by simp)
      have ih := base64urlDecodeQuanta_encode rest
        (fun b hb => h b (by simp [hb]))
      simp only [base64urlEncode, base64urlDecodeQuanta]
      rw [b64Index_b64Byte _ (by omega), b64Index_b64Byte _ (by omega),
        b64Index_b64Byte _ (by omega), b64Index_b64Byte _ (by omega)]
      simp only [Option.bind_eq_bind, Option.some_bind, ih, Option.some.injEq,
        List.cons.injEq]
      exact ⟨by omega, by omega, by omega, trivial⟩

/-- Unpadded URL-safe base64 decoding is a left inverse of encoding on byte
sequences. -/
theorem base64url_decode_encode (p : List Nat) (h : ∀ b ∈ p, b < 256) :
    base64urlDecode (base64urlEncode p) = some p := by
  unfold base64urlDecode
  rw [filter_base64urlEncode]
  exact base64urlDecodeQuanta_encode p h

/-- C1: for every vault name of byte length between 3 and 24 that matches
the charset `[-A-Za-z0-9]+` (for such names byte length and character count
coincide), and every environment whose DNS suffix for the requested class
(HSM or standard) is available, `getVaultURL` returns exactly
`https://{vaultName}.{suffix}/`, the name appearing verbatim with no
further normalization. -/
theorem getVaultURL_valid_name (vaultName : String) (managedHSM : Bool)
    (env : AzureEnvironment)
    (hlen1 : 3 ≤ vaultName.utf8ByteSize) (hlen2 : vaultName.utf8ByteSize ≤ 24)
    (hre : matchesVaultNameRegex vaultName = true)
    (hsuf : getVaultDNSSuffix managedHSM env ≠ notAvailable) :
    getVaultURL vaultName managedHSM env =
      .ok ("https://" ++ vaultName ++ "." ++ getVaultDNSSuffix managedHSM env ++ "/") := by
  unfold getVaultURL
  rw [if_neg (by omega), if_neg (by simp [hre]), if_neg hsuf]

/-- Witness for C1 at the spec's concrete scenario: vault `my-vault`, the
public cloud, non-HSM. -/
theorem getVaultURL_valid_name_witness :
    getVaultURL "my-vault" false azurePublicCloud =
      .ok ("https://" ++ "my-vault" ++ "." ++ getVaultDNSSuffix false azurePublicCloud ++ "/") :=
  getVaultURL_valid_name "my-vault" false azurePublicCloud (by decide) (by decide)
    (by decide) (by decide)

/-- C2: for every vault name whose byte length is outside `[3,24]` or that
fails the charset check `[-A-Za-z0-9]+`, `getVaultURL` returns a validation
error whose message quotes the offending name verbatim, and never an `ok`
URL: nothing is truncated or coerced. -/
theorem getVaultURL_invalid_name (vaultName : String) (managedHSM : Bool)
    (env : AzureEnvironment)
    (h : vaultName.utf8ByteSize < 3 ∨ 24 < vaultName.utf8ByteSize ∨
      matchesVaultNameRegex vaultName = false) :
    getVaultURL vaultName managedHSM env =
      .error (if vaultName.utf8ByteSize < 3 ∨ 24 < vaultName.utf8ByteSize then
          "invalid vault name: \"" ++ vaultName ++ "\", must be between 3 and 24 chars"
        else
          "invalid vault name: \"" ++ vaultName ++ "\", must match [-a-zA-Z0-9]\x7b3,24\x7d") := by
  unfold getVaultURL
  by_cases hl : vaultName.utf8ByteSize < 3 ∨ 24 < vaultName.utf8ByteSize
  · rw [if_pos hl, if_pos hl]
  · have hre : matchesVaultNameRegex vaultName = false := by
      rcases h with h | h | h
      · exact absurd (Or.inl h) hl
      · exact absurd (Or.inr h) hl
      · exact h
    rw [if_neg hl, if_pos (by simp [hre]), if_neg hl]

/-- Witness for C2 at the name `my_vault`, whose underscore is outside the
permitted character class. -/
theorem getVaultURL_invalid_name_witness :
    getVaultURL "my_vault" false azurePublicCloud =
      .error (if ("my_vault" : String).utf8ByteSize < 3 ∨ 24 < ("my_vault" : String).utf8ByteSize then
          "invalid vault name: \"" ++ "my_vault" ++ "\", must be between 3 and 24 chars"
        else
          "invalid vault name: \"" ++ "my_vault" ++ "\", must match [-a-zA-Z0-9]\x7b3,24\x7d") :=
  getVaultURL_invalid_name "my_vault" false azurePublicCloud (Or.inr (Or.inr (by decide)))

/-- C7: for every vault URL beginning with `https://`, every proxy address
and every proxy port, the proxy rewrite produces
`http://{proxyAddress}:{proxyPort}/` followed by the original URL with its
`https://` prefix stripped, keeping the original hostname as a path
segment; in particular at the spec's concrete example. -/
theorem getProxiedVaultURL_rewrite :
    (∀ (rest proxyAddress : String) (proxyPort : Int),
      getProxiedVaultURL ("https://" ++ rest) proxyAddress proxyPort =
        "http://" ++ proxyAddress ++ ":" ++ toString proxyPort ++ "/" ++ rest) ∧
    getProxiedVaultURL "https://myvault.vault.azure.net/" "127.0.0.1" 8080 =
      "http://127.0.0.1:8080/myvault.vault.azure.net/" := by
  constructor
  · intro rest proxyAddress proxyPort
    have hdata : ("https://" ++ rest).data =
        'h' :: 't' :: 't' :: 'p' :: 's' :: ':' :: '/' :: '/' :: rest.data := rfl
    have hcond : ("https://" ++ rest).data.take ("https://" : String).data.length =
        ("https://" : String).data := by
      rw [hdata]; rfl
    have ht : trimPre ("https://" ++ rest) "https://" = rest := by
      unfold trimPre
      rw [if_pos hcond, hdata]
      rfl
    unfold getProxiedVaultURL
    rw [ht]
  · rfl

/-- A concrete client state matching the spec's concrete scenario, used to
instantiate the operation theorems. -/
def kvc0 : KeyVaultClientState :=
  { vaultName := "my-vault"
    keyName := "key1"
    keyVersion := "abc123"
    vaultURL := "https://my-vault.vault.azure.net/"
    azureEnvironment := azurePublicCloud
    hasTargetTypeHeader := false }

/-- A stub remote store that echoes the request value, so that its encrypt
hands back the framed request and its decrypt returns the encoding it was
handed, as in the spec's framing stub. -/
def stubRemote : Remote := fun _ _ _ params => .ok params.value

/-- C4: `Encrypt` sends a request carrying the fixed RSA PKCS#1v1.5
algorithm identifier whose value is the unpadded URL-safe base64 encoding
of the plaintext, addressed by the client's vault URL, key name and key
version; a successful remote result is returned byte-for-byte with no
decoding, and a remote failure is returned as an error wrapping the cause
and no bytes. -/
theorem Encrypt_request_framing (remoteEncrypt : Remote) (kvc : KeyVaultClientState)
    (p : List Nat) :
    Encrypt remoteEncrypt kvc p =
      Except.mapError (fun e => "failed to encrypt, error: " ++ e)
        (remoteEncrypt kvc.vaultURL kvc.keyName kvc.keyVersion
          { algorithm := RSA15, value := base64urlEncode p }) := by
  simp only [Encrypt]
  cases remoteEncrypt kvc.vaultURL kvc.keyName kvc.keyVersion
    { algorithm := RSA15, value := base64urlEncode p } <;> rfl

/-- C5: `Decrypt` submits the ciphertext bytes themselves as the request
value, without re-encoding; a remote failure yields the operation error
wrapping the cause, a response that is not valid unpadded URL-safe base64
yields the decode (framing) error, a decodable response yields its decoded
bytes, and no framing-error message coincides with any operation-error
message. -/
theorem Decrypt_framing_vs_operation (remoteDecrypt : Remote)
    (kvc : KeyVaultClientState) (c : List Nat) :
    (∀ e, remoteDecrypt kvc.vaultURL kvc.keyName kvc.keyVersion
        { algorithm := RSA15, value := c } = .error e →
      Decrypt remoteDecrypt kvc c = .error ("failed to decrypt, error: " ++ e)) ∧
    (∀ r, remoteDecrypt kvc.vaultURL kvc.keyName kvc.keyVersion
        { algorithm := RSA15, value := c } = .ok r → base64urlDecode r = none →
      Decrypt remoteDecrypt kvc c = .error "failed to base64 decode result") ∧
    (∀ r bs, remoteDecrypt kvc.vaultURL kvc.keyName kvc.keyVersion
        { algorithm := RSA15, value := c } = .ok r → base64urlDecode r = some bs →
      Decrypt remoteDecrypt kvc c = .ok bs) ∧
    (∀ e : String, "failed to base64 decode result" ≠ "failed to decrypt, error: " ++ e) := by
  refine ⟨?_, ?_, ?_, ?_⟩
  · intro e he
    simp only [Decrypt]
    rw [he]
  · intro r hr hdec
    simp only [Decrypt]
    rw [hr]
    simp only [hdec]
  · intro r bs hr hdec
    simp only [Decrypt]
    rw [hr]
    simp only [hdec]
  · intro e h
    have hd : ("failed to base64 decode result" : String).data =
        ("failed to decrypt, error: " : String).data ++ e.data := by
      rw [h]; rfl
    have h10 : ("failed to base64 decode result" : String).data[10]? =
        (("failed to decrypt, error: " : String).data ++ e.data)[10]? := by
      rw [hd]
    rw [List.getElem?_append_left (by decide)] at h10
    exact absurd h10 (by decide)

/-- Witness for C5: a simulated network failure produces the operation
error, and a stub response outside the base64 alphabet produces the
framing error. -/
theorem Decrypt_framing_vs_operation_witness :
    Decrypt (fun _ _ _ _ => .error "network unreachable") kvc0 [1, 2] =
        .error ("failed to decrypt, error: " ++ "network unreachable") ∧
      Decrypt (fun _ _ _ _ => .ok [33]) kvc0 [1, 2] =
        .error "failed to base64 decode result" :=
  ⟨(Decrypt_framing_vs_operation (fun _ _ _ _ => .error "network unreachable") kvc0 [1, 2]).1
      "network unreachable" rfl,
    (Decrypt_framing_vs_operation (fun _ _ _ _ => .ok [33]) kvc0 [1, 2]).2.1 [33] rfl rfl⟩

/-- C6: decoding the unpadded URL-safe base64 encoding of any byte sequence
returns that sequence, and consequently, against the echoing stub remote
store, decrypting the result of encrypting any byte sequence returns it
unchanged. -/
theorem base64url_roundtrip_law :
    (∀ p : List Nat, (∀ b ∈ p, b < 256) →
      base64urlDecode (base64urlEncode p) = some p) ∧
    (∀ (kvc : KeyVaultClientState) (p : List Nat), (∀ b ∈ p, b < 256) →
      (Encrypt stubRemote kvc p).bind (fun c => Decrypt stubRemote kvc c) = .ok p) := by
  constructor
  · exact base64url_decode_encode
  · intro kvc p hp
    show Decrypt stubRemote kvc (base64urlEncode p) = .ok p
    simp only [Decrypt, stubRemote]
    rw [base64url_decode_encode p hp]

/-- Witness for C6 at a sequence containing a zero byte, a byte above the
ASCII range and a control byte, and at the empty sequence. -/
theorem base64url_roundtrip_law_witness :
    base64urlDecode (base64urlEncode [0, 255, 10, 177]) = some [0, 255, 10, 177] ∧
      base64urlDecode (base64urlEncode []) = some [] ∧
      (Encrypt stubRemote kvc0 [0, 255, 10, 177]).bind
          (fun c => Decrypt stubRemote kvc0 c) = .ok [0, 255, 10, 177] :=
  ⟨base64url_roundtrip_law.1 [0, 255, 10, 177] (by decide),
    base64url_roundtrip_law.1 [] (by decide),
    base64url_roundtrip_law.2 kvc0 [0, 255, 10, 177] (by decide)⟩

/-- A string has UTF-8 byte size zero exactly when it is empty, matching
the meaning of Go's `len(s) == 0` test. -/
theorem utf8ByteSize_eq_zero_iff (s : String) : s.utf8ByteSize = 0 ↔ s = "" := by
  cases s with
  | mk data =>
    rw [String.utf8ByteSize_mk, String.utf8Len_eq_zero, String.ext_iff]

/-- C9: whenever the vault name, key name or key version is empty after
sanitization, `newKeyVaultClient` returns the explicit construction-time
error and no client, whatever the remaining inputs and collaborators do;
since no client value exists, nothing is deferred to `Encrypt`/`Decrypt`
call time. -/
theorem newKeyVaultClient_empty_coordinate
    (sanitize : String → String) (userAgentErr : Option String)
    (parseAzureEnvironment : String → Except String AzureEnvironment)
    (getKeyvaultToken : AzureEnvironment → String → Bool → Except String Unit)
    (cloud vaultName keyName keyVersion : String)
    (proxyMode : Bool) (proxyAddress : String) (proxyPort : Int) (managedHSM : Bool)
    (h : sanitize vaultName = "" ∨ sanitize keyName = "" ∨ sanitize keyVersion = "") :
    newKeyVaultClient sanitize userAgentErr parseAzureEnvironment getKeyvaultToken
        cloud vaultName keyName keyVersion proxyMode proxyAddress proxyPort managedHSM =
      .error "key vault name, key name and key version are required" := by
  simp only [newKeyVaultClient]
  rw [if_pos]
  simp only [utf8ByteSize_eq_zero_iff]
  exact h

/-- Witness for C9: a key version that sanitizes to the empty string. -/
theorem newKeyVaultClient_empty_coordinate_witness :
    newKeyVaultClient id none (fun _ => .ok azurePublicCloud) (fun _ _ _ => .ok ())
        "AzurePublicCloud" "my-vault" "key1" "" false "" 0 false =
      .error "key vault name, key name and key version are required" :=
  newKeyVaultClient_empty_coordinate id none (fun _ => .ok azurePublicCloud)
    (fun _ _ _ => .ok ()) "AzurePublicCloud" "my-vault" "key1" "" false "" 0 false
    (Or.inr (Or.inr rfl))

/-- C3: when the resolved environment marks the requested class's resource
identifier as the not-available sentinel, client construction fails with
the configuration error naming the cloud and returns no client; and when
the requested class's DNS suffix is the sentinel, `getVaultURL` never
returns a URL, failing for well-formed names with the configuration error
naming the cloud. -/
theorem notAvailable_short_circuits
    (sanitize : String → String)
    (parseAzureEnvironment : String → Except String AzureEnvironment)
    (getKeyvaultToken : AzureEnvironment → String → Bool → Except String Unit)
    (cloud vaultName keyName keyVersion : String)
    (proxyMode : Bool) (proxyAddress : String) (proxyPort : Int) (managedHSM : Bool)
    (env : AzureEnvironment)
    (hv : sanitize vaultName ≠ "") (hk : sanitize keyName ≠ "")
    (hver : sanitize keyVersion ≠ "")
    (hParse : parseAzureEnvironment cloud = .ok env) :
    (getVaultResourceIdentifier managedHSM env = notAvailable →
      newKeyVaultClient sanitize none parseAzureEnvironment getKeyvaultToken
          cloud vaultName keyName keyVersion proxyMode proxyAddress proxyPort managedHSM =
        .error ("keyvault resource identifier not available for cloud: " ++ env.name)) ∧
    (getVaultDNSSuffix managedHSM env = notAvailable →
      ∀ v : String, (∀ u, getVaultURL v managedHSM env ≠ .ok u) ∧
        (3 ≤ v.utf8ByteSize → v.utf8ByteSize ≤ 24 → matchesVaultNameRegex v = true →
          getVaultURL v managedHSM env =
            .error ("vault dns suffix not available for cloud: " ++ env.name))) := by
  constructor
  · intro hres
    simp only [newKeyVaultClient, hParse]
    rw [if_neg (by
      simp only [not_or, utf8ByteSize_eq_zero_iff]
      exact ⟨hv, hk, hver⟩)]
    rw [if_pos]
    · cases proxyMode <;> rfl
    · cases proxyMode <;> simpa [getVaultResourceIdentifier] using hres
  · intro hsuf v
    constructor
    · intro u
      unfold getVaultURL
      split_ifs <;> simp_all
    · intro hl1 hl2 hre
      unfold getVaultURL
      rw [if_neg (by omega), if_neg (by simp [hre]), if_pos hsuf]

/-- Witness for C3 at the German cloud, whose managed-HSM resource
identifier and DNS suffix are both the sentinel. -/
theorem notAvailable_short_circuits_witness :
    newKeyVaultClient id none (fun _ => .ok azureGermanCloud) (fun _ _ _ => .ok ())
        "AzureGermanCloud" "my-vault" "key1" "abc123" false "" 0 true =
      .error ("keyvault resource identifier not available for cloud: " ++
        azureGermanCloud.name) ∧
    getVaultURL "my-vault" true azureGermanCloud =
      .error ("vault dns suffix not available for cloud: " ++ azureGermanCloud.name) := by
  have h := notAvailable_short_circuits id (fun _ => .ok azureGermanCloud)
    (fun _ _ _ => .ok ()) "AzureGermanCloud" "my-vault" "key1" "abc123"
    false "" 0 true azureGermanCloud (by decide) (by decide) (by decide) rfl
  exact ⟨h.1 (by decide),
    ((h.2 (by decide) "my-vault").2 (by decide) (by decide) (by decide))⟩

/-- C10: with proxy mode disabled the construction result does not depend
on the proxy address or port at all, and a successfully constructed client
keeps the resolved environment unchanged (in particular its
identity-provider endpoint), stores exactly the `https://` URL produced by
`getVaultURL`, and installs no target-type routing header. -/
theorem newKeyVaultClient_no_proxy_frame
    (sanitize : String → String) (userAgentErr : Option String)
    (parseAzureEnvironment : String → Except String AzureEnvironment)
    (getKeyvaultToken : AzureEnvironment → String → Bool → Except String Unit)
    (cloud vaultName keyName keyVersion : String)
    (a a' : String) (p p' : Int) (managedHSM : Bool) :
    (newKeyVaultClient sanitize userAgentErr parseAzureEnvironment getKeyvaultToken
        cloud vaultName keyName keyVersion false a p managedHSM =
      newKeyVaultClient sanitize userAgentErr parseAzureEnvironment getKeyvaultToken
        cloud vaultName keyName keyVersion false a' p' managedHSM) ∧
    (∀ (env : AzureEnvironment) (c : KeyVaultClientState),
      parseAzureEnvironment cloud = .ok env →
      newKeyVaultClient sanitize userAgentErr parseAzureEnvironment getKeyvaultToken
          cloud vaultName keyName keyVersion false a p managedHSM = .ok c →
      c.azureEnvironment = env ∧ c.hasTargetTypeHeader = false ∧
        getVaultURL (sanitize vaultName) managedHSM env = .ok c.vaultURL) := by
  constructor
  · rfl
  · intro env c hParse hok
    simp only [newKeyVaultClient, hParse, Bool.false_eq_true, if_false] at hok
    split at hok
    · exact absurd hok (by simp)
    · split at hok
      · exact absurd hok (by simp)
      · split at hok
        · exact absurd hok (by simp)
        · split at hok
          · exact absurd hok (by simp)
          · split at hok
            · exact absurd hok (by simp)
            · rename_i vaultURL0 heq
              cases hok
              exact ⟨rfl, rfl, heq.symm ▸ rfl⟩

/-- Witness for C10 at the spec's concrete scenario, sampling two proxy
address/port pairs. -/
theorem newKeyVaultClient_no_proxy_frame_witness :
    (newKeyVaultClient id none (fun _ => .ok azurePublicCloud) (fun _ _ _ => .ok ())
        "AzurePublicCloud" "my-vault" "key1" "abc123" false "10.0.0.1" 99 false =
      newKeyVaultClient id none (fun _ => .ok azurePublicCloud) (fun _ _ _ => .ok ())
        "AzurePublicCloud" "my-vault" "key1" "abc123" false "127.0.0.1" 7788 false) ∧
    (kvc0.azureEnvironment = azurePublicCloud ∧ kvc0.hasTargetTypeHeader = false ∧
      getVaultURL (id "my-vault") false azurePublicCloud = .ok kvc0.vaultURL) :=
  ⟨(newKeyVaultClient_no_proxy_frame id none (fun _ => .ok azurePublicCloud)
      (fun _ _ _ => .ok ()) "AzurePublicCloud" "my-vault" "key1" "abc123"
      "10.0.0.1" "127.0.0.1" 99 7788 false).1,
    (newKeyVaultClient_no_proxy_frame id none (fun _ => .ok azurePublicCloud)
      (fun _ _ _ => .ok ()) "AzurePublicCloud" "my-vault" "key1" "abc123"
      "10.0.0.1" "127.0.0.1" 99 7788 false).2 azurePublicCloud kvc0 rfl rfl⟩

/-- C8 counterexample: constructing in proxy mode against the public cloud
with proxy `127.0.0.1:7788` records the identity-provider endpoint
`http://127.0.0.1:7788/`, which differs from the result of applying the
vault-endpoint proxy transformation to the original identity-provider
endpoint, so the identity-provider endpoint is not rewritten by the same
transformation and its hostname is not preserved as a path segment. -/
theorem proxied_ad_endpoint_counterexample :
    (newKeyVaultClient id none (fun _ => .ok azurePublicCloud) (fun _ _ _ => .ok ())
        "AzurePublicCloud" "my-vault" "key1" "abc123" true "127.0.0.1" 7788 false).map
        (fun c => c.azureEnvironment.activeDirectoryEndpoint) =
      .ok "http://127.0.0.1:7788/" ∧
    getProxiedVaultURL azurePublicCloud.activeDirectoryEndpoint "127.0.0.1" 7788 =
      "http://127.0.0.1:7788/login.microsoftonline.com/" ∧
    ("http://127.0.0.1:7788/" : String) ≠
      "http://127.0.0.1:7788/login.microsoftonline.com/" := by
  refine ⟨rfl, rfl, ?_⟩
  decide

/-- C8 amended: when proxy mode is enabled, a successfully constructed
client records the identity-provider endpoint replaced wholesale by
`http://{proxyAddress}:{proxyPort}/` (the original identity-provider
hostname is not kept as a path segment), attaches the target-type routing
header, and it is only the vault endpoint that is rewritten through the
path-preserving proxy transformation. -/
theorem proxied_ad_endpoint_amended
    (sanitize : String → String) (userAgentErr : Option String)
    (parseAzureEnvironment : String → Except String AzureEnvironment)
    (getKeyvaultToken : AzureEnvironment → String → Bool → Except String Unit)
    (cloud vaultName keyName keyVersion : String)
    (proxyAddress : String) (proxyPort : Int) (managedHSM : Bool)
    (env : AzureEnvironment) (c : KeyVaultClientState)
    (hParse : parseAzureEnvironment cloud = .ok env)
    (hok : newKeyVaultClient sanitize userAgentErr parseAzureEnvironment getKeyvaultToken
        cloud vaultName keyName keyVersion true proxyAddress proxyPort managedHSM = .ok c) :
    c.azureEnvironment.activeDirectoryEndpoint =
      "http://" ++ proxyAddress ++ ":" ++ toString proxyPort ++ "/" ∧
    c.hasTargetTypeHeader = true ∧
    ∃ u, getVaultURL (sanitize vaultName) managedHSM c.azureEnvironment = .ok u ∧
      c.vaultURL = getProxiedVaultURL u proxyAddress proxyPort := by
  simp only [newKeyVaultClient, hParse, if_true] at hok
  split at hok
  · exact absurd hok (by simp)
  · split at hok
    · exact absurd hok (by simp)
    · split at hok
      · exact absurd hok (by simp)
      · split at hok
        · exact absurd hok (by simp)
        · split at hok
          · exact absurd hok (by simp)
          · rename_i vaultURL0 heq
            cases hok
            exact ⟨rfl, rfl, vaultURL0, heq, rfl⟩

/-- The client state produced by the concrete proxy-mode construction used
to witness the amended C8. -/
def kvcProxy : KeyVaultClientState :=
  { vaultName := "my-vault"
    keyName := "key1"
    keyVersion := "abc123"
    vaultURL := "http://127.0.0.1:7788/my-vault.vault.azure.net/"
    azureEnvironment :=
      { azurePublicCloud with activeDirectoryEndpoint := "http://127.0.0.1:7788/" }
    hasTargetTypeHeader := true }

/-- Witness for the amended C8 at the concrete proxy-mode construction. -/
theorem proxied_ad_endpoint_amended_witness :
    kvcProxy.azureEnvironment.activeDirectoryEndpoint =
      "http://" ++ "127.0.0.1" ++ ":" ++ toString (7788 : Int) ++ "/" ∧
    kvcProxy.hasTargetTypeHeader = true ∧
    ∃ u, getVaultURL (id "my-vault") false kvcProxy.azureEnvironment = .ok u ∧
      kvcProxy.vaultURL = getProxiedVaultURL u "127.0.0.1" 7788 :=
  proxied_ad_endpoint_amended id none (fun _ => .ok azurePublicCloud)
    (fun _ _ _ => .ok ()) "AzurePublicCloud" "my-vault" "key1" "abc123"
    "127.0.0.1" 7788 false azurePublicCloud kvcProxy rfl rfl

end KubernetesKMS
